import Mathlib

/-!
Verification of `pypuf/studies/breaking_lightweight_secure/attack_runtime.py`.

We give a shallow embedding of the duration formatter (`time_to_string`,
`round_time`), the per-cell time-to-first-success estimator and renderer
inside `AttackRuntimeStudy.gen_table`, and the experiment matrix generator
`AttackRuntimeStudy.experiments`.  Durations, accuracies and thresholds are
modelled as exact rationals; Python `//` on numbers is floor division,
Python `round` is round-half-to-even, and `timedelta(seconds = t)` is
modelled through its normalized `days` and `seconds` attributes.
-/

namespace AttackRuntime

/-- Python `round`: nearest integer, ties to even. -/
def pythonRound (q : ℚ) : ℤ :=
  if q - ⌊q⌋ < 1/2 then ⌊q⌋
  else if 1/2 < q - ⌊q⌋ then ⌊q⌋ + 1
  else if ⌊q⌋ % 2 = 0 then ⌊q⌋ else ⌊q⌋ + 1

/-- Python `%2i` or `%02i` formatting: decimal representation padded on the
left with the given one-character pad to a minimum width of 2. -/
def pad2 (c : String) (m : ℤ) : String :=
  let s := toString m
  if s.length < 2 then c ++ s else s

/-- The `days` attribute of the normalized `timedelta(seconds = t)`. -/
def tdDays (t : ℚ) : ℤ := ⌊t / 86400⌋

/-- The integer `seconds` attribute of the normalized `timedelta(seconds = t)`. -/
def tdSeconds (t : ℚ) : ℤ := ⌊t⌋ - 86400 * tdDays t

/-- The `hours = delta.seconds // 3600` computed by `time_to_string`. -/
def tdHours (t : ℚ) : ℤ := tdSeconds t / 3600

/-- Embedding of `time_to_string(delta)` where `delta = timedelta(seconds = t)`. -/
def timeToString (t : ℚ) : String :=
  if 4 * 24 * 60 ^ 2 < t then
    toString (tdDays t) ++ " days"
  else if 24 * tdDays t + tdHours t = 0 then
    pad2 " " ((tdSeconds t - 3600 * tdHours t) / 60) ++ "m " ++
      pad2 "0" (tdSeconds t - 3600 * tdHours t -
        60 * ((tdSeconds t - 3600 * tdHours t) / 60)) ++ "s"
  else
    pad2 " " (24 * tdDays t + tdHours t) ++ "h " ++
      pad2 "0" (pythonRound (((tdSeconds t - 3600 * tdHours t : ℤ) : ℚ) / 60)) ++ "m"

/-- Embedding of `round_time(seconds)`: for each unit `u` in `[4 days, 1]`,
if `seconds > u` return `seconds // u * u` (floor division); otherwise
return `seconds` unchanged. -/
def roundTime (s : ℚ) : ℚ :=
  if 4 * 24 * 60 ^ 2 < s then ⌊s / (4 * 24 * 60 ^ 2)⌋ * (4 * 24 * 60 ^ 2)
  else if 1 < s then ⌊s / 1⌋ * 1
  else s

/-- One row of the experimenter result table consumed by `gen_table`. -/
structure ResultRow where
  n : ℤ
  k : ℤ
  N : ℤ
  transformation : String
  experiment : String
  accuracy : ℚ
  measured_time : ℚ

/-- The study's fixed success threshold `self.success_threshold = .98`. -/
def success_threshold : ℚ := 98/100

/-- Mean of a list of rationals, as pandas `.mean()` on a non-empty column. -/
def listMean (l : List ℚ) : ℚ := l.sum / l.length

/-- `sel.loc[sel[accuracy] > self.success_threshold]`. -/
def successfulRuns (sel : List ResultRow) (thr : ℚ) : List ResultRow :=
  sel.filter fun r => decide (thr < r.accuracy)

/-- `sel.loc[sel[accuracy] <= self.success_threshold]`. -/
def failedRuns (sel : List ResultRow) (thr : ℚ) : List ResultRow :=
  sel.filter fun r => decide (r.accuracy ≤ thr)

/-- `success_rate = len(successful_runs) / len(sel)`. -/
def successRate (sel : List ResultRow) (thr : ℚ) : ℚ :=
  ((successfulRuns sel thr).length : ℚ) / (sel.length : ℚ)

/-- `avg_wall_time = sel[measured_time].mean()`. -/
def avgWallTime (sel : List ResultRow) : ℚ :=
  listMean (sel.map ResultRow.measured_time)

/-- `avg_no_success_wall_time = failed_runs[measured_time].mean() if not
failed_runs.empty else 0`. -/
def avgNoSuccessWallTime (sel : List ResultRow) (thr : ℚ) : ℚ :=
  if (failedRuns sel thr).isEmpty then 0
  else listMean ((failedRuns sel thr).map ResultRow.measured_time)

/-- `avg_success_wall_time = successful_runs[measured_time].mean()`. -/
def avgSuccessWallTime (sel : List ResultRow) (thr : ℚ) : ℚ :=
  listMean ((successfulRuns sel thr).map ResultRow.measured_time)

/-- The estimator branch of `gen_table`: geometric-retry estimate when
`success_rate > 0`, otherwise the lower-bound fallback
`avg_wall_time * len(sel)`. -/
def expectedTimeTillSuccess (sel : List ResultRow) (thr : ℚ) : ℚ :=
  if 0 < successRate sel thr then
    ((⌈1 / successRate sel thr⌉ - 1 : ℤ) : ℚ) * avgNoSuccessWallTime sel thr
      + avgSuccessWallTime sel thr
  else
    avgWallTime sel * (sel.length : ℚ)

/-- Whether the cell is rendered through the parenthesized lower-bound branch
of `gen_table` (the `success_rate > 0` test failing). -/
def isLowerBound (sel : List ResultRow) (thr : ℚ) : Bool :=
  !(decide (0 < successRate sel thr))

/-- Rendering of one table cell in `gen_table`: `no data yet` for an empty
selection, the bare formatted duration when `success_rate > 0`, and the
duration wrapped in parentheses with the trailing `$\x7b\x7d^\ast$` marker
otherwise. -/
def renderCell (sel : List ResultRow) (thr : ℚ) : String :=
  if sel.isEmpty then "no data yet"
  else if 0 < successRate sel thr then
    timeToString (roundTime (expectedTimeTillSuccess sel thr))
  else
    "(" ++ timeToString (roundTime (expectedTimeTillSuccess sel thr)) ++ ")$\x7b\x7d^\x5cast$"

/-- Embedding of the `TableEntryParameters` named tuple. -/
structure TableEntryParameters where
  n : ℤ
  k : ℤ
  N : ℤ
  plot_layout : Option (ℤ × ℤ × ℤ) := none
  label : String := ""
deriving DecidableEq

/-- The keyword arguments shared by both experiment kinds in
`AttackRuntimeStudy.experiments` (`common_parameters`). -/
structure CommonParameters where
  n : ℤ
  k : ℤ
  N : ℤ
  seed_instance : ℕ
  seed_model : ℕ
  seed_challenge : ℕ
  seed_distance : ℕ
  mini_batch_size : ℕ
  convergence_decimals : ℕ
  shuffle : Bool
deriving DecidableEq

/-- A trial specification appended to the experiment list: either a
correlation-attack experiment with its LR iteration limit, or a
logistic-regression experiment with a transformation and combiner. -/
inductive ExperimentSpec where
  | correlationAttack (params : CommonParameters) (lr_iteration_limit : ℕ)
  | logisticRegression (params : CommonParameters) (transformation : String)
      (combiner : String)
deriving DecidableEq

/-- The static configuration list `AttackRuntimeStudy.PARAMETERS`. -/
def PARAMETERS : List TableEntryParameters :=
  [⟨64, 5, 300000, some (2, 2, 1), "Perm. Index. Dist. (n=64; k=5; 300,000 CRPs)"⟩,
   ⟨64, 6, 1000000, some (2, 2, 2), "Perm. Index. Dist. (n=64; k=6; 1,000,000 CRPs)"⟩,
   ⟨64, 7, 2000000, none, ""⟩,
   ⟨128, 4, 1000000, some (2, 2, 3), "Perm. Index. Dist. (n=128; k=4; 2,000,000 CRPs)"⟩,
   ⟨128, 5, 2000000, some (2, 2, 4), "Perm. Index. Dist. (n=128; k=5; 2,000,000 CRPs)"⟩]

/-- The method names of `AttackRuntimeStudy.TRANSFORMATIONS`. -/
def TRANSFORMATIONS : List String :=
  ["transform_atf", "transform_lightweight_secure", "transform_fixed_permutation"]

/-- The `common_parameters` dictionary built for configuration `p` at
repetition index `i`. -/
def commonParams (p : TableEntryParameters) (i : ℕ) : CommonParameters :=
  { n := p.n, k := p.k, N := p.N,
    seed_instance := 314159 + i,
    seed_model := 265358 + i,
    seed_challenge := 979323 + i,
    seed_distance := 846264 + i,
    mini_batch_size := 0,
    convergence_decimals := 2,
    shuffle := false }

/-- Embedding of `AttackRuntimeStudy.experiments`, parameterized by the
sample count and the configuration list: for each repetition index and each
configuration, one correlation-attack specification followed by one
logistic-regression specification per transformation. -/
def experimentsList (samples : ℕ) (parameters : List TableEntryParameters) :
    List ExperimentSpec :=
  (List.range samples).flatMap fun i =>
    parameters.flatMap fun p =>
      ExperimentSpec.correlationAttack (commonParams p i) 1000 ::
        TRANSFORMATIONS.map fun t =>
          ExperimentSpec.logisticRegression (commonParams p i) t "combiner_xor"

/-- The four seeds carried by a trial specification, in the order instance,
model, challenge, distance. -/
def seedsOf : ExperimentSpec → ℕ × ℕ × ℕ × ℕ
  | .correlationAttack c _ => (c.seed_instance, c.seed_model, c.seed_challenge, c.seed_distance)
  | .logisticRegression c _ _ => (c.seed_instance, c.seed_model, c.seed_challenge, c.seed_distance)

/-- The fixed column list of `gen_table`: pairs of attack kind and
transformation name. -/
def COLUMNS : List (String × String) :=
  [("lr", "transform_atf"),
   ("lr", "transform_lightweight_secure"),
   ("corr", "transform_lightweight_secure"),
   ("lr", "transform_fixed_permutation")]

/-- The row selection of `gen_table` for one configuration and one column:
first filter on exact equality of `(n, k, N)`, then, when the attack kind is
`corr`, keep rows whose experiment is `ExperimentCorrelationAttack`
(ignoring the transformation), and otherwise keep rows whose transformation
equals the column's transformation and whose experiment is
`ExperimentLogisticRegression`. -/
def selectCell (results : List ResultRow) (p : TableEntryParameters)
    (c : String × String) : List ResultRow :=
  if c.1 = "corr" then
    (results.filter fun r => decide (r.n = p.n ∧ r.k = p.k ∧ r.N = p.N)).filter
      fun r => decide (r.experiment = "ExperimentCorrelationAttack")
  else
    (results.filter fun r => decide (r.n = p.n ∧ r.k = p.k ∧ r.N = p.N)).filter
      fun r =>
        decide (r.transformation = c.2 ∧ r.experiment = "ExperimentLogisticRegression")

/-- Display name of the experiment class implementing an attack kind. -/
def attackExperimentName (attack : String) : String :=
  if attack = "corr" then "ExperimentCorrelationAttack"
  else "ExperimentLogisticRegression"

/-- The selection rule in the words of the specification: every column keeps
exactly the rows matching the configuration's `(n, k, N)` and BOTH the
column's attack-kind discriminator and its transformation discriminator. -/
def selectCellSpec (results : List ResultRow) (p : TableEntryParameters)
    (c : String × String) : List ResultRow :=
  results.filter fun r =>
    decide (r.n = p.n ∧ r.k = p.k ∧ r.N = p.N ∧
      r.experiment = attackExperimentName c.1 ∧ r.transformation = c.2)

/-- One table row of `gen_table`: the rendered cell for every column. -/
def renderRow (results : List ResultRow) (p : TableEntryParameters) (thr : ℚ) :
    List String :=
  COLUMNS.map fun c => renderCell (selectCell results p c) thr

/-- Concrete cell with accuracies `[0.99, 0.99, 0.5]` and measured times
`[100, 120, 50]`, the worked example of the specification. -/
def cellGeom : List ResultRow :=
  [⟨64, 5, 300000, "transform_atf", "ExperimentLogisticRegression", 99/100, 100⟩,
   ⟨64, 5, 300000, "transform_atf", "ExperimentLogisticRegression", 99/100, 120⟩,
   ⟨64, 5, 300000, "transform_atf", "ExperimentLogisticRegression", 1/2, 50⟩]

/-- Concrete cell with four failed trials and measured times
`[10, 20, 30, 40]`. -/
def cellNoSuccess : List ResultRow :=
  [⟨64, 5, 300000, "transform_atf", "ExperimentLogisticRegression", 1/2, 10⟩,
   ⟨64, 5, 300000, "transform_atf", "ExperimentLogisticRegression", 1/2, 20⟩,
   ⟨64, 5, 300000, "transform_atf", "ExperimentLogisticRegression", 1/2, 30⟩,
   ⟨64, 5, 300000, "transform_atf", "ExperimentLogisticRegression", 1/2, 40⟩]

/-- A configuration with the `(n, k, N)` identity of the first static entry
and no plot metadata. -/
def paramA : TableEntryParameters := ⟨64, 5, 300000, none, ""⟩

/-- A malformed configuration with non-positive `n`. -/
def badParam : TableEntryParameters := ⟨0, 5, 300000, none, ""⟩

/-- A result row recorded by the correlation-attack experiment whose
transformation field differs from the correlation column's transformation. -/
def corrMismatchRow : ResultRow :=
  ⟨64, 5, 300000, "transform_atf", "ExperimentCorrelationAttack", 1/2, 100⟩

end AttackRuntime

namespace AttackRuntime

/-- C7: for every duration `s ≥ 0`, `round_time` never increases the
duration: `roundTime s ≤ s`. -/
theorem c7_round_time_monotone : ∀ s : ℚ, 0 ≤ s → roundTime s ≤ s := by
  intro s hs
  unfold roundTime
  split_ifs with h1 h2
  · have hC : (0:ℚ) < 4 * 24 * 60 ^ 2 := by norm_num
    calc ((⌊s / (4 * 24 * 60 ^ 2)⌋ : ℚ)) * (4 * 24 * 60 ^ 2)
        ≤ (s / (4 * 24 * 60 ^ 2)) * (4 * 24 * 60 ^ 2) :=
          mul_le_mul_of_nonneg_right (Int.floor_le _) (le_of_lt hC)
      _ = s := div_mul_cancel₀ s (ne_of_gt hC)
  · simpa using Int.floor_le s
  · exact le_refl s

/-- Witness for C7 at the concrete duration 400000. -/
theorem c7_round_time_monotone_witness : (0:ℚ) ≤ 400000 ∧ roundTime 400000 ≤ 400000 :=
  ⟨by norm_num, c7_round_time_monotone 400000 (by norm_num)⟩

/-- C6 (amended): for `s ≥ 0`, `roundTime` returns `⌊s / 345600⌋ * 345600`,
an integer multiple of 4 days, when `s` exceeds 4 days; returns `s` truncated
to whole seconds when `1 < s ≤ 4` days; and returns `s` unchanged (without
truncation) when `s ≤ 1`; in particular `roundTime 400000 = 345600`. -/
theorem c6_round_time_branches :
    (∀ s : ℚ, 0 ≤ s →
      (4 * 24 * 60 ^ 2 < s →
        roundTime s = (⌊s / (4 * 24 * 60 ^ 2)⌋ : ℚ) * (4 * 24 * 60 ^ 2) ∧
        ∃ m : ℤ, roundTime s = (m : ℚ) * 345600) ∧
      (1 < s → s ≤ 4 * 24 * 60 ^ 2 → roundTime s = (⌊s⌋ : ℚ)) ∧
      (s ≤ 1 → roundTime s = s)) ∧
    roundTime 400000 = 345600 := by
  constructor
  · intro s hs
    refine ⟨fun h1 => ?_, fun h2 h3 => ?_, fun h4 => ?_⟩
    · rw [roundTime, if_pos h1]
      exact ⟨rfl, ⟨⌊s / (4 * 24 * 60 ^ 2)⌋, by norm_num⟩⟩
    · rw [roundTime, if_neg (not_lt.mpr h3), if_pos h2]
      simp
    · have hA : ¬ ((4 * 24 * 60 ^ 2 : ℚ) < s) := by norm_num; linarith
      rw [roundTime, if_neg hA, if_neg (not_lt.mpr h4)]
  · norm_num [roundTime]

/-- Witness for C6 at the concrete duration 400000, which exceeds 4 days. -/
theorem c6_round_time_branches_witness :
    (0:ℚ) ≤ 400000 ∧ (4 * 24 * 60 ^ 2 : ℚ) < 400000 ∧
    ∃ m : ℤ, roundTime 400000 = (m : ℚ) * 345600 :=
  ⟨by norm_num, by norm_num,
    ((c6_round_time_branches.1 400000 (by norm_num)).1 (by norm_num)).2⟩

/-- Counterexample for C6 as stated: the sub-4-day duration 1/2 is NOT
truncated down to a whole number of seconds; `roundTime` returns it
unchanged, differing from its floor. -/
theorem c6_subsecond_cx :
    roundTime (1/2) = 1/2 ∧ roundTime (1/2) ≠ ((⌊(1/2 : ℚ)⌋ : ℤ) : ℚ) := by
  constructor
  · norm_num [roundTime]
  · norm_num [roundTime]

/-- C8 (amended): every duration in `[0, 3600)` renders as
`"<minutes>m <seconds>s"` with no day or hour component, where the minutes
field is space-padded to width 2 and the seconds field is zero-padded to
width 2; in particular `timeToString 125 = " 2m 05s"` (with a leading
space). -/
theorem c8_under_one_hour_format :
    (∀ s : ℚ, 0 ≤ s → s < 3600 →
      timeToString s =
        pad2 " " (⌊s⌋ / 60) ++ "m " ++ pad2 "0" (⌊s⌋ - 60 * (⌊s⌋ / 60)) ++ "s") ∧
    timeToString 125 = " 2m 05s" := by
  constructor
  · intro s h0 h1
    have hne : ¬ ((4 * 24 * 60 ^ 2 : ℚ) < s) := by norm_num; linarith
    have hdays : tdDays s = 0 := by
      unfold tdDays
      rw [Int.floor_eq_zero_iff, Set.mem_Ico]
      constructor
      · exact div_nonneg h0 (by norm_num)
      · rw [div_lt_one (by norm_num)]; linarith
    have hsecs : tdSeconds s = ⌊s⌋ := by unfold tdSeconds; rw [hdays]; ring
    have hlow : 0 ≤ ⌊s⌋ := Int.floor_nonneg.mpr h0
    have hhigh : ⌊s⌋ < 3600 := Int.floor_lt.mpr (by exact_mod_cast h1)
    have hhours : tdHours s = 0 := by unfold tdHours; rw [hsecs]; omega
    simp only [timeToString, if_neg hne, hdays, hhours, hsecs]
    norm_num
  · simp only [timeToString, pad2, tdDays, tdSeconds, tdHours]
    norm_num
    rfl

/-- Witness for C8 (amended) at the concrete duration 125. -/
theorem c8_under_one_hour_format_witness :
    (0:ℚ) ≤ 125 ∧ (125:ℚ) < 3600 ∧
    timeToString 125 = pad2 " " (⌊(125:ℚ)⌋ / 60) ++ "m " ++
      pad2 "0" (⌊(125:ℚ)⌋ - 60 * (⌊(125:ℚ)⌋ / 60)) ++ "s" :=
  ⟨by norm_num, by norm_num, c8_under_one_hour_format.1 125 (by norm_num) (by norm_num)⟩

/-- Counterexample for C8 as stated: `timeToString 125` is `" 2m 05s"` with
a leading space from the `%2i` minutes field, not the claimed exact string
`"2m 05s"`. -/
theorem c8_leading_space_cx :
    timeToString 125 = " 2m 05s" ∧ " 2m 05s" ≠ "2m 05s" := by
  constructor
  · simp only [timeToString, pad2, tdDays, tdSeconds, tdHours]
    norm_num
    rfl
  · decide

/-- C10: the hours branch of `time_to_string` rounds the leftover seconds to
the nearest whole minute without overflow handling, so the 7199-second
duration renders with hours 1 and a minutes field of 60 (the string
`" 1h 60m"`) rather than `"2h 00m"`. -/
theorem c10_minutes_sixty :
    timeToString 7199 = " 1h 60m" ∧ timeToString 7199 ≠ "2h 00m" := by
  have h : timeToString 7199 = " 1h 60m" := by
    simp only [timeToString, pad2, pythonRound, tdDays, tdSeconds, tdHours]
    norm_num
    rfl
  exact ⟨h, by rw [h]; decide⟩

end AttackRuntime

namespace AttackRuntime

/-- C1: for every cell with at least one successful trial, the estimated
expected time to first success equals
`(ceil(1/success_rate) - 1) * mean_failure_time + mean_success_time`, the
mean failure time being 0 when there are no failed trials; and on the
concrete cell with accuracies `[0.99, 0.99, 0.5]`, threshold 0.98 and
measured times `[100, 120, 50]` the estimate is 160. -/
theorem c1_geometric_estimate :
    (∀ (sel : List ResultRow) (thr : ℚ), successfulRuns sel thr ≠ [] →
      expectedTimeTillSuccess sel thr =
        ((⌈1 / successRate sel thr⌉ - 1 : ℤ) : ℚ) * avgNoSuccessWallTime sel thr
          + avgSuccessWallTime sel thr) ∧
    expectedTimeTillSuccess cellGeom (98/100) = 160 := by
  constructor
  · intro sel thr h
    have h1 : 0 < (successfulRuns sel thr).length := List.length_pos.mpr h
    have h2 : (successfulRuns sel thr).length ≤ sel.length :=
      List.length_filter_le _ _
    have hrate : 0 < successRate sel thr := by
      unfold successRate
      apply div_pos
      · exact_mod_cast h1
      · exact_mod_cast lt_of_lt_of_le h1 h2
    rw [expectedTimeTillSuccess, if_pos hrate]
  · have hc : (⌈(3:ℚ)/2⌉ : ℤ) = 2 := by
      rw [Int.ceil_eq_iff]
      norm_num
    norm_num [expectedTimeTillSuccess, successRate, successfulRuns, failedRuns,
      avgNoSuccessWallTime, avgSuccessWallTime, listMean, cellGeom, List.filter, hc]

/-- Witness for C1 at the concrete worked-example cell. -/
theorem c1_geometric_estimate_witness :
    successfulRuns cellGeom (98/100) ≠ [] ∧
    expectedTimeTillSuccess cellGeom (98/100) =
      ((⌈1 / successRate cellGeom (98/100)⌉ - 1 : ℤ) : ℚ) *
          avgNoSuccessWallTime cellGeom (98/100)
        + avgSuccessWallTime cellGeom (98/100) :=
  ⟨by
    norm_num [successfulRuns, cellGeom, List.filter]
    simp,
   c1_geometric_estimate.1 cellGeom (98/100) (by
    norm_num [successfulRuns, cellGeom, List.filter]
    simp)⟩

/-- C2: for every non-empty cell with `success_rate = 0` the estimate is the
cell-wide mean measured time multiplied by the cell size, the lower-bound
flag is set, and the rendered cell wraps the formatted duration in
parentheses with the trailing marker glyph; for every cell with
`success_rate > 0` the flag is false and the duration renders unmarked. -/
theorem c2_lower_bound_fallback :
    (∀ (sel : List ResultRow) (thr : ℚ), sel ≠ [] → successRate sel thr = 0 →
      expectedTimeTillSuccess sel thr = avgWallTime sel * (sel.length : ℚ) ∧
      isLowerBound sel thr = true ∧
      renderCell sel thr =
        "(" ++ timeToString (roundTime (expectedTimeTillSuccess sel thr)) ++
          ")$\x7b\x7d^\x5cast$") ∧
    (∀ (sel : List ResultRow) (thr : ℚ), 0 < successRate sel thr →
      isLowerBound sel thr = false ∧
      renderCell sel thr = timeToString (roundTime (expectedTimeTillSuccess sel thr))) := by
  constructor
  · intro sel thr hne hrate
    have hnotpos : ¬ 0 < successRate sel thr := by rw [hrate]; exact lt_irrefl 0
    have hempty : sel.isEmpty = false := by
      cases sel with
      | nil => exact absurd rfl hne
      | cons a l => rfl
    refine ⟨?_, ?_, ?_⟩
    · rw [expectedTimeTillSuccess, if_neg hnotpos]
    · simp [isLowerBound, hnotpos]
    · simp only [renderCell, hempty, Bool.false_eq_true, if_false, if_neg hnotpos]
  · intro sel thr hrate
    have hne : sel ≠ [] := by
      intro h
      rw [h] at hrate
      norm_num [successRate, successfulRuns, List.filter] at hrate
    have hempty : sel.isEmpty = false := by
      cases sel with
      | nil => exact absurd rfl hne
      | cons a l => rfl
    refine ⟨by simp [isLowerBound, hrate], ?_⟩
    simp only [renderCell, hempty, Bool.false_eq_true, if_false, if_pos hrate]

/-- Witness for C2 at the four-failure cell and the worked-example cell. -/
theorem c2_lower_bound_fallback_witness :
    ((cellNoSuccess ≠ []) ∧ successRate cellNoSuccess (98/100) = 0 ∧
      expectedTimeTillSuccess cellNoSuccess (98/100) =
        avgWallTime cellNoSuccess * (cellNoSuccess.length : ℚ) ∧
      isLowerBound cellNoSuccess (98/100) = true) ∧
    (0 < successRate cellGeom (98/100) ∧ isLowerBound cellGeom (98/100) = false) := by
  have hne : cellNoSuccess ≠ [] := by simp [cellNoSuccess]
  have h0 : successRate cellNoSuccess (98/100) = 0 := by
    norm_num [successRate, successfulRuns, cellNoSuccess, List.filter]
  have h1 : (0:ℚ) < successRate cellGeom (98/100) := by
    norm_num [successRate, successfulRuns, cellGeom, List.filter]
  obtain ⟨ha, hb, hcx⟩ := c2_lower_bound_fallback.1 cellNoSuccess (98/100) hne h0
  obtain ⟨hd, he⟩ := c2_lower_bound_fallback.2 cellGeom (98/100) h1
  exact ⟨⟨hne, h0, ha, hb⟩, ⟨h1, hd⟩⟩

/-- C3: an empty selection renders the placeholder `no data yet`; the row
renderer always emits one string per column; and the entry at each column
index is exactly the rendering of that column's own selection, so no cell
can affect the rendering of another. -/
theorem c3_empty_cell_placeholder :
    (∀ (results : List ResultRow) (p : TableEntryParameters) (thr : ℚ)
        (c : String × String),
      selectCell results p c = [] →
        renderCell (selectCell results p c) thr = "no data yet") ∧
    (∀ (results : List ResultRow) (p : TableEntryParameters) (thr : ℚ),
      (renderRow results p thr).length = COLUMNS.length) ∧
    (∀ (results : List ResultRow) (p : TableEntryParameters) (thr : ℚ) (i : ℕ),
      (renderRow results p thr)[i]? =
        (COLUMNS[i]?).map fun c => renderCell (selectCell results p c) thr) := by
  refine ⟨?_, ?_, ?_⟩
  · intro results p thr c h
    rw [h]
    rfl
  · intro results p thr
    simp [renderRow]
  · intro results p thr i
    simp [renderRow, List.getElem?_map]

/-- Witness for C3 at an empty result table. -/
theorem c3_empty_cell_placeholder_witness :
    selectCell [] paramA ("lr", "transform_atf") = [] ∧
    renderCell (selectCell [] paramA ("lr", "transform_atf")) (98/100) = "no data yet" :=
  ⟨rfl, c3_empty_cell_placeholder.1 [] paramA (98/100) ("lr", "transform_atf") rfl⟩

/-- Counterexample for C4 as stated: the correlation column selects a row
whose transformation field (`transform_atf`) differs from the column's
transformation (`transform_lightweight_secure`), so not every column filters
by the transformation discriminator; the spec-faithful selection rejects the
same row. -/
theorem c4_corr_ignores_transformation_cx :
    selectCell [corrMismatchRow] paramA ("corr", "transform_lightweight_secure") =
      [corrMismatchRow] ∧
    corrMismatchRow.transformation ≠ "transform_lightweight_secure" ∧
    selectCellSpec [corrMismatchRow] paramA ("corr", "transform_lightweight_secure") = [] := by
  refine ⟨rfl, by decide, rfl⟩

/-- C4 (amended): a row is selected for a cell iff it matches the
configuration's `(n, k, N)` by exact equality and, for the correlation
column, has experiment kind `ExperimentCorrelationAttack` (its
transformation field being ignored), while for LR columns it must match both
the column's transformation and the `ExperimentLogisticRegression` kind. -/
theorem c4_selection_discriminators :
    ∀ (results : List ResultRow) (p : TableEntryParameters) (c : String × String)
      (r : ResultRow),
      r ∈ selectCell results p c ↔
        r ∈ results ∧ r.n = p.n ∧ r.k = p.k ∧ r.N = p.N ∧
          (if c.1 = "corr" then r.experiment = "ExperimentCorrelationAttack"
           else r.transformation = c.2 ∧
             r.experiment = "ExperimentLogisticRegression") := by
  intro results p c r
  unfold selectCell
  by_cases hc : c.1 = "corr"
  · simp only [hc, if_pos, if_true, List.mem_filter, decide_eq_true_eq]
    tauto
  · simp only [if_neg hc, hc, if_false, List.mem_filter, decide_eq_true_eq]
    tauto

/-- C5 (amended): the generator performs no validation of `n`, `k`, `N`; for
every sample count and every configuration list, including malformed ones,
it produces exactly `samples * configurations * 4` trial specifications and
never fails. -/
theorem c5_generator_never_fails :
    ∀ (samples : ℕ) (params : List TableEntryParameters),
      (experimentsList samples params).length = samples * (params.length * 4) := by
  have key : ∀ (params : List TableEntryParameters) (i : ℕ),
      (params.flatMap fun p =>
        ExperimentSpec.correlationAttack (commonParams p i) 1000 ::
          TRANSFORMATIONS.map fun t =>
            ExperimentSpec.logisticRegression (commonParams p i) t
              "combiner_xor").length = params.length * 4 := by
    intro params i
    induction params with
    | nil => rfl
    | cons p ps ih =>
      simp only [List.flatMap_cons, List.length_append, ih, List.length_cons,
        List.length_map]
      simp [TRANSFORMATIONS]
      ring
  intro samples params
  induction samples with
  | zero => simp [experimentsList]
  | succ n ih =>
    unfold experimentsList at ih ⊢
    rw [List.range_succ, List.flatMap_append, List.length_append, ih,
      List.flatMap_cons, List.flatMap_nil, List.append_nil, key]
    ring

/-- Counterexample for C5 as stated: a configuration list containing a
non-positive `n` still yields the full batch of four trial specifications
per repetition; no failure occurs at construction time. -/
theorem c5_invalid_config_cx :
    ¬ (0 < badParam.n) ∧ experimentsList 1 [badParam] ≠ [] ∧
    (experimentsList 1 [badParam]).length = 4 := by
  refine ⟨by decide, by decide, by decide⟩

/-- C9: every trial specification emitted by the generator carries the four
seeds `314159 + i`, `265358 + i`, `979323 + i`, `846264 + i` of its
repetition index `i`, derived from four distinct constant base offsets, and
the four seeds are pairwise distinct. -/
theorem c9_seed_derivation :
    ∀ (samples : ℕ) (params : List TableEntryParameters) (e : ExperimentSpec),
      e ∈ experimentsList samples params →
      ∃ i : ℕ, i < samples ∧ ∃ a b c d : ℕ,
        seedsOf e = (a, b, c, d) ∧
        a = 314159 + i ∧ b = 265358 + i ∧ c = 979323 + i ∧ d = 846264 + i ∧
        a ≠ b ∧ a ≠ c ∧ a ≠ d ∧ b ≠ c ∧ b ≠ d ∧ c ≠ d := by
  intro samples params e he
  simp only [experimentsList, List.mem_flatMap, List.mem_range] at he
  obtain ⟨i, hi, p, hp, hmem⟩ := he
  refine ⟨i, hi, 314159 + i, 265358 + i, 979323 + i, 846264 + i, ?_, rfl, rfl, rfl,
    rfl, by omega, by omega, by omega, by omega, by omega, by omega⟩
  rcases List.mem_cons.mp hmem with h | h
  · subst h
    rfl
  · obtain ⟨t, ht, rfl⟩ := List.mem_map.mp h
    rfl

/-- Witness for C9 at the first correlation-attack specification generated
for a single repetition. -/
theorem c9_seed_derivation_witness :
    (ExperimentSpec.correlationAttack (commonParams paramA 0) 1000 ∈
      experimentsList 1 [paramA]) ∧
    ∃ i : ℕ, i < 1 ∧ ∃ a b c d : ℕ,
      seedsOf (ExperimentSpec.correlationAttack (commonParams paramA 0) 1000) =
        (a, b, c, d) ∧ a ≠ b ∧ a ≠ c ∧ a ≠ d ∧ b ≠ c ∧ b ≠ d ∧ c ≠ d := by
  have hm : ExperimentSpec.correlationAttack (commonParams paramA 0) 1000 ∈
      experimentsList 1 [paramA] := by decide
  obtain ⟨i, hi, a, b, c, d, hseeds, -, -, -, -, hab, hac, had, hbc, hbd, hcd⟩ :=
    c9_seed_derivation 1 [paramA] _ hm
  exact ⟨hm, ⟨i, hi, a, b, c, d, hseeds, hab, hac, had, hbc, hbd, hcd⟩⟩

end AttackRuntime
